import Mathlib

/-!
Verification of the RBAC-gated data-access layer of the school chatbot
(`auth.py`, `models.py`, `db_tools.py`), as a shallow embedding.

Modelling conventions:
- Python floats are modelled as rationals (`ℚ`).
- Calendar dates are modelled as naturals ordered exactly like their ISO
  `YYYY-MM-DD` strings (the code compares and sorts dates only).
- A raised Python exception that escapes a function is modelled as
  `Except.error`; an exception caught inside the function never surfaces.
- `jwt.decode` (signature verification, an external library) is modelled by
  its outcome: `none` for `JWTError`, otherwise the claims dictionary.
-/

/-- `UserRole` enum (models.py:18-23). -/
inductive UserRole
  | admin
  | teacher
  | student
  | parent
deriving DecidableEq

/-- The `UserRole(value)` enum lookup; `none` models the `ValueError`
Python raises for a string outside the closed set. -/
def UserRole.ofString (s : String) : Option UserRole :=
  if s = "admin" then some .admin
  else if s = "teacher" then some .teacher
  else if s = "student" then some .student
  else if s = "parent" then some .parent
  else none

/-- `AttendanceStatus` enum (models.py:26-31). -/
inductive AttendanceStatus
  | present
  | absent
  | late
  | excused
deriving DecidableEq

/-- `AuthPayload` (auth.py:26-34): the identity record after JWT decode.
`role` is a plain string there, not a `UserRole`. -/
structure AuthPayload where
  user_id : String
  email : String
  role : String
  schema_name : String
  student_id : Option String
  teacher_id : Option String
  exp : Int
deriving DecidableEq

/-- The claims dictionary returned by `jwt.decode`, with each field as
pydantic validation of `AuthPayload(**payload)` sees it: `none` means the
key is missing (or of the wrong type, which validation rejects the same
way). -/
structure Claims where
  user_id : Option String
  email : Option String
  role : Option String
  schema_name : Option String
  student_id : Option String
  teacher_id : Option String
  exp : Option Int
deriving DecidableEq

/-- `AuthService.decode_token` (auth.py:106-137) as a function of the
signature-verification outcome (`none` models `JWTError`) and the current
timestamp. A pydantic validation failure (missing required field) is caught
by the broad `except Exception` and, like signature failure and expiry,
collapses to `None`. The expiry test is the source's strict
`datetime.fromtimestamp(exp) < datetime.utcnow()` comparison (both sides
modelled on one timeline). -/
def decode_token (verified : Option Claims) (now : Int) : Option AuthPayload :=
  match verified with
  | none => none
  | some c =>
    match c.user_id, c.email, c.role, c.schema_name, c.exp with
    | some u, some em, some r, some sn, some ex =>
      if ex < now then none
      else some ⟨u, em, r, sn, c.student_id, c.teacher_id, ex⟩
    | _, _, _, _, _ => none

/-- Message standing in for the `ValueError` raised by `UserRole(value)`. -/
def valueErrorUserRole : String := "ValueError: not a valid UserRole"

/-- `RBACService.can_access_student_data` (auth.py:194-226). The target id
is `Option String` because Python callers pass `Optional[str]` through.
`Except.error` models the `ValueError` that `UserRole(auth_payload.role)`
raises on a role string outside the enum. The student branch is the
source's `auth_payload.student_id == target_student_id`. -/
def can_access_student_data (auth_payload : AuthPayload)
    (target_student_id : Option String) : Except String Bool :=
  match UserRole.ofString auth_payload.role with
  | none => .error valueErrorUserRole
  | some role =>
    if role = .admin then .ok true
    else if role = .student then .ok (decide (auth_payload.student_id = target_student_id))
    else if role = .teacher then .ok true
    else .ok false

/-- A Python filter value: `None` or a string. -/
abbrev FilterValue := Option String

/-- A Python dict of query filters: a key is either absent or mapped to a
value. -/
abbrev Filters := String → Option FilterValue

/-- Dict assignment `d[k] = v`. -/
def Filters.set (f : Filters) (k : String) (v : FilterValue) : Filters :=
  fun k2 => if k2 = k then some v else f k2

/-- `RBACService.filter_query_by_role` (auth.py:257-284): for a student
identity it assigns `base_filters["student_id"] = auth_payload.student_id`;
teacher and admin pass through; an unknown role string raises `ValueError`
at `UserRole(auth_payload.role)`. -/
def filter_query_by_role (auth_payload : AuthPayload) (base_filters : Filters) :
    Except String Filters :=
  match UserRole.ofString auth_payload.role with
  | none => .error valueErrorUserRole
  | some role =>
    if role = .student then .ok (base_filters.set "student_id" auth_payload.student_id)
    else .ok base_filters

/-- Look up a key in the outcome of a filter computation (no key is
observable when the computation raised). -/
def filters_get (r : Except String Filters) (k : String) : Option FilterValue :=
  match r with
  | .ok f => f k
  | .error _ => none

/-- A row of the `users` table (models.py:43-60), the columns this layer
reads. -/
structure UserRow where
  id : Nat
  email : String
  first_name : String
  last_name : String
deriving DecidableEq

/-- A row of the `students` table (models.py:63-83). -/
structure StudentRow where
  id : Nat
  student_id : String
  user_id : Nat
  roll_number : String
  class_id : Nat
  admission_date : Nat
  parent_contact : Option String
  parent_email : Option String
deriving DecidableEq

/-- A row of the `classes` table (models.py:105-125). The `section` column
is renamed `section_name` because `section` is a Lean keyword. -/
structure ClassRow where
  id : Nat
  class_id : String
  name : String
  grade : Int
  section_name : Option String
deriving DecidableEq

/-- A row of the `attendance` table (models.py:178-196). -/
structure AttendanceRow where
  id : Nat
  student_id : Nat
  date : Nat
  status : AttendanceStatus
deriving DecidableEq

/-- A row of the `exam_results` table (models.py:147-170), the columns this
layer aggregates. -/
structure ExamResultRow where
  id : Nat
  student_id : Nat
  marks_obtained : ℚ
  max_marks : ℚ
deriving DecidableEq

/-- `ExamResult.percentage` (models.py:172-175):
`(marks_obtained / max_marks) * 100 if max_marks > 0 else 0.0`. -/
def ExamResultRow.percentage (r : ExamResultRow) : ℚ :=
  if r.max_marks > 0 then r.marks_obtained / r.max_marks * 100 else 0

/-- One tenant partition of the store. -/
structure DB where
  users : List UserRow
  students : List StudentRow
  classes : List ClassRow
  attendance : List AttendanceRow
  exam_results : List ExamResultRow
deriving DecidableEq

/-- `select(Student, User).join(User, ...).where(Student.student_id == sid)`
followed by `.first()` (db_tools.py:156-161). An SQL comparison against
`NULL` matches no row, hence the `some _ = sid` test. -/
def find_student_user (db : DB) (sid : Option String) :
    Option (StudentRow × UserRow) :=
  (db.students.filterMap (fun s =>
    if some s.student_id = sid then
      (db.users.find? (fun u => decide (u.id = s.user_id))).map (fun u => (s, u))
    else none)).head?

/-- The triple join of `get_student_info` (db_tools.py:96-102):
`select(Student, User, Class)` with the two inner joins, `.first()`. -/
def find_student_user_class (db : DB) (sid : Option String) :
    Option (StudentRow × UserRow × ClassRow) :=
  (db.students.filterMap (fun s =>
    if some s.student_id = sid then
      match db.users.find? (fun u => decide (u.id = s.user_id)),
            db.classes.find? (fun c => decide (c.id = s.class_id)) with
      | some u, some c => some (s, u, c)
      | _, _ => none
    else none)).head?

/-- Python `round` on integers-of-hundredths: round-half-to-even. (Python
rounds binary floats; on the exact rationals used here the only deviation
from floor-plus-half rounding is the tie-breaking rule, and no aggregate in
this development lands on a tie.) -/
def round_half_even (q : ℚ) : Int :=
  let f : Int := q.num.fdiv q.den
  if q - f < 1/2 then f
  else if (1 : ℚ)/2 < q - f then f + 1
  else if f % 2 = 0 then f else f + 1

/-- Python `round(x, 2)`. -/
def round2 (q : ℚ) : ℚ := (round_half_even (q * 100) : ℚ) / 100

/-- The target-resolution prologue shared by the student-scoped tools
(db_tools.py:84-88, 143-147, 232-236, 309-313): with no explicit id a
student identity falls back to its own `student_id` (which may itself be
absent), any other role is told to supply an id, and an unrecognized role
string makes `UserRole(self.auth_payload.role)` raise `ValueError`. -/
inductive Resolved
  | required
  | target (sid : Option String)
deriving DecidableEq

def resolve_student_id (auth_payload : AuthPayload) (student_id : Option String) :
    Except String Resolved :=
  match student_id with
  | some sid => .ok (.target (some sid))
  | none =>
    match UserRole.ofString auth_payload.role with
    | none => .error valueErrorUserRole
    | some role =>
      if role = .student then .ok (.target auth_payload.student_id)
      else .ok .required

/-- The result dictionary of `get_student_info`: either an `error` entry or
the student record of db_tools.py:109-120. -/
inductive StudentInfoResult
  | error (msg : String)
  | info (student_id name email roll_number : String)
      (class_name : String) (grade : Int) (section_name : Option String)
      (admission_date : Nat) (parent_contact parent_email : Option String)
deriving DecidableEq

/-- `DatabaseQueryTools.get_student_info` (db_tools.py:73-123). The RBAC
check precedes the `try` block, so a `ValueError` from an invalid role
propagates (`Except.error`); everything inside the session is caught and
turned into an error dictionary. -/
def get_student_info (auth_payload : AuthPayload) (student_id : Option String)
    (db : DB) : Except String StudentInfoResult :=
  match resolve_student_id auth_payload student_id with
  | .error e => .error e
  | .ok .required => .ok (.error "Student ID required for non-student users")
  | .ok (.target sid) =>
    match can_access_student_data auth_payload sid with
    | .error e => .error e
    | .ok false =>
      .ok (.error "Access denied: You don\x27t have permission to view this student\x27s data")
    | .ok true =>
      match find_student_user_class db sid with
      | none => .ok (.error ("Student " ++ sid.getD "None" ++ " not found"))
      | some (s, u, c) =>
        .ok (.info s.student_id (u.first_name ++ " " ++ u.last_name) u.email
          s.roll_number c.name c.grade c.section_name s.admission_date
          s.parent_contact s.parent_email)

/-- Stable insertion of a row into a date-descending list (a strictly later
date goes in front; equal dates keep arrival order). -/
def insert_date_desc (a : AttendanceRow) : List AttendanceRow → List AttendanceRow
  | [] => [a]
  | b :: bs => if b.date < a.date then a :: b :: bs else b :: insert_date_desc a bs

/-- `ORDER BY date DESC` as a stable descending sort. -/
def sort_date_desc : List AttendanceRow → List AttendanceRow
  | [] => []
  | x :: xs => insert_date_desc x (sort_date_desc xs)

/-- The attendance query of db_tools.py:169-177: rows of the student,
optionally bounded by `start_date`/`end_date` (both inclusive), ordered by
date descending. -/
def attendance_query (db : DB) (sid : Nat) (start_date end_date : Option Nat) :
    List AttendanceRow :=
  sort_date_desc (db.attendance.filter (fun a =>
    decide (a.student_id = sid)
    && (match start_date with | some sd => decide (sd ≤ a.date) | none => true)
    && (match end_date with | some ed => decide (a.date ≤ ed) | none => true)))

/-- `sum(1 for a in attendance_records if a.status == st)`
(db_tools.py:181-184). -/
def count_status (records : List AttendanceRow) (st : AttendanceStatus) : Nat :=
  records.countP (fun a => decide (a.status = st))

/-- `(present_days / total_days * 100) if total_days > 0 else 0`
(db_tools.py:186). -/
def attendance_percentage_of (records : List AttendanceRow) : ℚ :=
  if 0 < records.length then
    (count_status records .present : ℚ) / (records.length : ℚ) * 100
  else 0

/-- The `recent_absences` comprehension (db_tools.py:189-193): the first 10
of the date-descending records, keeping the dates of those that are absent. -/
def recent_absences_of (records : List AttendanceRow) : List Nat :=
  (records.take 10).filterMap
    (fun a => if a.status = .absent then some a.date else none)

/-- The report dictionary of `get_student_attendance` (db_tools.py:195-209). -/
structure AttendanceReportOut where
  student_id : Option String
  student_name : String
  total_days : Nat
  present_days : Nat
  absent_days : Nat
  late_days : Nat
  excused_days : Nat
  attendance_percentage : ℚ
  recent_absences : List Nat
  period_start : Option Nat
  period_end : Option Nat
deriving DecidableEq

inductive AttendanceResult
  | error (msg : String)
  | report (r : AttendanceReportOut)
deriving DecidableEq

/-- `DatabaseQueryTools.get_student_attendance` (db_tools.py:125-212). -/
def get_student_attendance (auth_payload : AuthPayload)
    (student_id : Option String) (start_date end_date : Option Nat) (db : DB) :
    Except String AttendanceResult :=
  match resolve_student_id auth_payload student_id with
  | .error e => .error e
  | .ok .required => .ok (.error "Student ID required")
  | .ok (.target sid) =>
    match can_access_student_data auth_payload sid with
    | .error e => .error e
    | .ok false => .ok (.error "Access denied")
    | .ok true =>
      match find_student_user db sid with
      | none => .ok (.error "Student not found")
      | some (s, u) =>
        let records := attendance_query db s.id start_date end_date
        .ok (.report {
          student_id := sid
          student_name := u.first_name ++ " " ++ u.last_name
          total_days := records.length
          present_days := count_status records .present
          absent_days := count_status records .absent
          late_days := count_status records .late
          excused_days := count_status records .excused
          attendance_percentage := round2 (attendance_percentage_of records)
          recent_absences := recent_absences_of records
          period_start := start_date
          period_end := end_date })

/-- Whether an attendance call produced a report (as opposed to an error
dictionary or a raised exception). -/
def attendance_result_is_report : Except String AttendanceResult → Bool
  | .ok (.report _) => true
  | _ => false

/-- The `recent_absences` field of an attendance report (empty when no
report was produced). -/
def attendance_result_recent_absences : Except String AttendanceResult → List Nat
  | .ok (.report r) => r.recent_absences
  | _ => []

/-- The `attendance_percentage` field of an attendance report (0 when no
report was produced). -/
def attendance_result_percentage : Except String AttendanceResult → ℚ
  | .ok (.report r) => r.attendance_percentage
  | _ => 0

/-- Modelled from the spec words, for the refinement comparison of the
`recentAbsences` claim only (not translated from the code): "dates of the
most recent 10 records (by date, descending) whose status is absent, taken
from the already date/range-filtered set" — i.e. filter to absences first,
then take 10. The argument is the already filtered, date-descending list. -/
def recent_absences_spec (records : List AttendanceRow) : List Nat :=
  ((records.filter (fun a => decide (a.status = .absent))).take 10).map
    (fun a => a.date)

/-- The four performance-tier insight messages (db_tools.py:388-395). -/
def excellent_msg : String := "Excellent overall performance! Keep up the great work."

def good_msg : String := "Good performance. Focus on weaker subjects to excel further."

def average_msg : String := "Average performance. More effort needed in several subjects."

def needs_improvement_msg : String := "Performance needs improvement. Consider seeking additional help."

def low_attendance_msg : String := "Low attendance detected. Regular attendance is crucial for better performance."

/-- The performance-tier if/elif chain of `get_performance_analysis`
(db_tools.py:388-395). -/
def performance_tier (avg_performance : ℚ) : String :=
  if avg_performance ≥ 90 then excellent_msg
  else if avg_performance ≥ 75 then good_msg
  else if avg_performance ≥ 60 then average_msg
  else needs_improvement_msg

/-- The `insights` list construction of `get_performance_analysis`
(db_tools.py:386-412): the tier message, then the low-attendance insight,
then the weak- and strong-subject insights. -/
def performance_insights (avg_performance attendance_percentage : ℚ)
    (subject_averages : List (String × ℚ)) : List String :=
  [performance_tier avg_performance]
  ++ (if attendance_percentage < 75 then [low_attendance_msg] else [])
  ++ (let weak_subjects := (subject_averages.filter (fun sa => decide (sa.2 < 60))).map
        (fun sa => sa.1)
      if weak_subjects = [] then []
      else ["Need improvement in: " ++ String.intercalate ", " weak_subjects])
  ++ (let strong_subjects := (subject_averages.filter (fun sa => decide (sa.2 ≥ 85))).map
        (fun sa => sa.1)
      if strong_subjects = [] then []
      else ["Excelling in: " ++ String.intercalate ", " strong_subjects])

/-- The result dictionary of `get_class_performance` (db_tools.py:528-534). -/
inductive ClassPerfResult
  | error (msg : String)
  | perf (class_id class_name : String) (total_students : Nat)
      (average_class_performance : ℚ) (total_exams_conducted : Nat)
deriving DecidableEq

/-- `Result.scalar_one_or_none` (db_tools.py:502): `none` on no row, the
row when unique, and a raised `MultipleResultsFound` otherwise (which the
enclosing `except` turns into an error dictionary). -/
def scalar_one_or_none : List ClassRow → Except String (Option ClassRow)
  | [] => .ok none
  | [c] => .ok (some c)
  | _ => .error "MultipleResultsFound"

/-- `DatabaseQueryTools.get_class_performance` (db_tools.py:481-537). The
returned `Bool` records whether the `async with ... get_session` block was
entered, i.e. whether any storage session/query was issued; the role check
at db_tools.py:492-494 runs before it. The exam statistics mirror the
`avg`/`count` aggregate over the `ExamResult ⋈ Student` join, with SQL
`AVG` of an empty set being `NULL` and `stats.avg_marks or 0` mapping that
to 0. -/
def get_class_performance (auth_payload : AuthPayload) (class_id : String)
    (db : DB) : Except String (ClassPerfResult × Bool) :=
  match UserRole.ofString auth_payload.role with
  | none => .error valueErrorUserRole
  | some role =>
    if role = .admin ∨ role = .teacher then
      match scalar_one_or_none (db.classes.filter (fun c => decide (c.class_id = class_id))) with
      | .error e => .ok (.error e, true)
      | .ok none => .ok (.error "Class not found", true)
      | .ok (some class_info) =>
        let students := db.students.filter (fun s => decide (s.class_id = class_info.id))
        let joined := db.exam_results.flatMap (fun e =>
          (db.students.filter (fun s =>
            decide (e.student_id = s.id) && decide (s.class_id = class_info.id))).map
            (fun _ => e))
        let avg_marks : Option ℚ :=
          if joined.length = 0 then none
          else some ((joined.map (fun e => e.marks_obtained)).sum / (joined.length : ℚ))
        .ok (.perf class_id class_info.name students.length
          (round2 (avg_marks.getD 0)) joined.length, true)
    else
      .ok (.error "Access denied: Only admins and teachers can view class statistics", false)

/-- Concrete identities used by witnesses and counterexamples. -/
def admin_payload : AuthPayload := ⟨"adm1", "adm@x", "admin", "t1", none, none, 0⟩

def parent_payload : AuthPayload := ⟨"par1", "par@x", "parent", "t1", none, none, 0⟩

def u1_row : UserRow := ⟨1, "s1@x", "Asha", "Rao"⟩

def s1_row : StudentRow := ⟨1, "S1", 1, "R1", 1, 20200601, none, none⟩

def class1_row : ClassRow := ⟨1, "C1", "Grade 10 A", 10, some "A"⟩

/-- 20 attendance records: 17 present, 1 absent, 1 late, 1 excused. -/
def att20_rows : List AttendanceRow :=
  [⟨1, 1, 101, .excused⟩, ⟨2, 1, 102, .late⟩, ⟨3, 1, 103, .absent⟩,
   ⟨4, 1, 104, .present⟩, ⟨5, 1, 105, .present⟩, ⟨6, 1, 106, .present⟩,
   ⟨7, 1, 107, .present⟩, ⟨8, 1, 108, .present⟩, ⟨9, 1, 109, .present⟩,
   ⟨10, 1, 110, .present⟩, ⟨11, 1, 111, .present⟩, ⟨12, 1, 112, .present⟩,
   ⟨13, 1, 113, .present⟩, ⟨14, 1, 114, .present⟩, ⟨15, 1, 115, .present⟩,
   ⟨16, 1, 116, .present⟩, ⟨17, 1, 117, .present⟩, ⟨18, 1, 118, .present⟩,
   ⟨19, 1, 119, .present⟩, ⟨20, 1, 120, .present⟩]

def db20 : DB := ⟨[u1_row], [s1_row], [class1_row], att20_rows, []⟩

/-- 11 attendance records: the 10 most recent are present, the oldest is
absent. -/
def att11_rows : List AttendanceRow :=
  [⟨1, 1, 201, .absent⟩, ⟨2, 1, 202, .present⟩, ⟨3, 1, 203, .present⟩,
   ⟨4, 1, 204, .present⟩, ⟨5, 1, 205, .present⟩, ⟨6, 1, 206, .present⟩,
   ⟨7, 1, 207, .present⟩, ⟨8, 1, 208, .present⟩, ⟨9, 1, 209, .present⟩,
   ⟨10, 1, 210, .present⟩, ⟨11, 1, 211, .present⟩]

def db11 : DB := ⟨[u1_row], [s1_row], [class1_row], att11_rows, []⟩

/-- A caller-supplied filter dictionary that tries to widen a student scope. -/
def base_filters_w : Filters := fun k =>
  if k = "student_id" then some (some "EVIL")
  else if k = "class_id" then some (some "C9") else none

/-- C1: for a student identity, `filter_query_by_role` forces the
`student_id` filter to the identity's own `student_id`, overwriting any
caller-supplied value, leaves every other filter key unchanged, and
applying it a second time yields the same filters (idempotent override). -/
theorem c1_scope_filters_student_override
    (uid em sn : String) (sid tid : Option String) (ex : Int)
    (base : Filters) (k : String) (hk : k ≠ "student_id") :
    filters_get (filter_query_by_role ⟨uid, em, "student", sn, sid, tid, ex⟩ base) "student_id"
        = some sid
    ∧ filters_get (filter_query_by_role ⟨uid, em, "student", sn, sid, tid, ex⟩ base) k = base k
    ∧ (filter_query_by_role ⟨uid, em, "student", sn, sid, tid, ex⟩ base).bind
        (fun f => filter_query_by_role ⟨uid, em, "student", sn, sid, tid, ex⟩ f)
      = filter_query_by_role ⟨uid, em, "student", sn, sid, tid, ex⟩ base := by
  refine ⟨rfl, ?_, ?_⟩
  · simp [filters_get, filter_query_by_role, UserRole.ofString, Filters.set, hk]
  · have hset : (base.set "student_id" sid).set "student_id" sid
        = base.set "student_id" sid := by
      funext k2
      by_cases h : k2 = "student_id" <;> simp [Filters.set, h]
    show Except.ok ((base.set "student_id" sid).set "student_id" sid)
        = Except.ok (base.set "student_id" sid)
    rw [hset]

/-- Witness for C1 at a concrete student identity and a filter dictionary
that tries to smuggle a foreign `student_id`. -/
theorem c1_scope_filters_student_override_witness :
    filters_get (filter_query_by_role ⟨"u1", "s@x", "student", "t1", some "S1", none, 0⟩
        base_filters_w) "student_id" = some (some "S1")
    ∧ filters_get (filter_query_by_role ⟨"u1", "s@x", "student", "t1", some "S1", none, 0⟩
        base_filters_w) "class_id" = base_filters_w "class_id"
    ∧ (filter_query_by_role ⟨"u1", "s@x", "student", "t1", some "S1", none, 0⟩ base_filters_w).bind
        (fun f => filter_query_by_role ⟨"u1", "s@x", "student", "t1", some "S1", none, 0⟩ f)
      = filter_query_by_role ⟨"u1", "s@x", "student", "t1", some "S1", none, 0⟩ base_filters_w :=
  c1_scope_filters_student_override "u1" "s@x" "t1" (some "S1") none 0 base_filters_w
    "class_id" (by decide)

/-- An identity whose role string lies outside the closed role enum. -/
def c2_payload : AuthPayload := ⟨"u9", "x@y", "superuser", "t1", none, none, 0⟩

/-- C2 counterexample: for a role string outside the enum,
`can_access_student_data` raises `ValueError` at `UserRole(role)` instead
of returning false — the claim's "any other role string returns false,
never raises" fails. -/
theorem c2_counterexample_unknown_role_raises :
    can_access_student_data c2_payload (some "S1") = Except.error valueErrorUserRole
    ∧ can_access_student_data c2_payload (some "S1") ≠ Except.ok false :=
  ⟨rfl, fun h => Except.noConfusion h⟩

/-- C2 amended: admin → true; student → true iff its own `student_id`
equals the target; teacher → true; parent → false; and a role string
outside the enum makes `UserRole(auth_payload.role)` raise `ValueError`
(modelled as an error result) rather than returning false. -/
theorem c2_can_access_case_analysis
    (uid em sn : String) (sid tid : Option String) (ex : Int) (t r : String)
    (hr : UserRole.ofString r = none) :
    can_access_student_data ⟨uid, em, "admin", sn, sid, tid, ex⟩ (some t) = Except.ok true
    ∧ can_access_student_data ⟨uid, em, "student", sn, sid, tid, ex⟩ (some t)
        = Except.ok (decide (sid = some t))
    ∧ can_access_student_data ⟨uid, em, "teacher", sn, sid, tid, ex⟩ (some t) = Except.ok true
    ∧ can_access_student_data ⟨uid, em, "parent", sn, sid, tid, ex⟩ (some t) = Except.ok false
    ∧ can_access_student_data ⟨uid, em, r, sn, sid, tid, ex⟩ (some t)
        = Except.error valueErrorUserRole := by
  refine ⟨rfl, rfl, rfl, rfl, ?_⟩
  simp [can_access_student_data, hr]

/-- Witness for the amended C2 at concrete identities of each role. -/
theorem c2_can_access_case_analysis_witness :
    can_access_student_data ⟨"u1", "a@x", "admin", "t1", some "S7", none, 0⟩ (some "S7")
        = Except.ok true
    ∧ can_access_student_data ⟨"u1", "a@x", "student", "t1", some "S7", none, 0⟩ (some "S7")
        = Except.ok true
    ∧ can_access_student_data ⟨"u1", "a@x", "teacher", "t1", some "S7", none, 0⟩ (some "S7")
        = Except.ok true
    ∧ can_access_student_data ⟨"u1", "a@x", "parent", "t1", some "S7", none, 0⟩ (some "S7")
        = Except.ok false
    ∧ can_access_student_data ⟨"u1", "a@x", "superuser", "t1", some "S7", none, 0⟩ (some "S7")
        = Except.error valueErrorUserRole :=
  c2_can_access_case_analysis "u1" "a@x" "t1" (some "S7") none 0 "S7" "superuser" rfl

/-- C3: whenever `can_access_student_data` denies (returns false),
`get_student_info` returns exactly the access-denied error dictionary — a
result carrying no name, email, roll number, class or contact attribute of
the target, and never a partially populated record. -/
theorem c3_denied_student_info_no_fields
    (p : AuthPayload) (target : String) (db : DB)
    (h : can_access_student_data p (some target) = Except.ok false) :
    get_student_info p (some target) db
      = Except.ok (StudentInfoResult.error
          "Access denied: You don\x27t have permission to view this student\x27s data") := by
  simp [get_student_info, resolve_student_id, h]

/-- Witness for C3: a parent identity is denied on a database that does
contain the target student, and gets the bare denial dictionary. -/
theorem c3_denied_student_info_no_fields_witness :
    can_access_student_data parent_payload (some "S1") = Except.ok false
    ∧ get_student_info parent_payload (some "S1") db20
      = Except.ok (StudentInfoResult.error
          "Access denied: You don\x27t have permission to view this student\x27s data") :=
  ⟨rfl, c3_denied_student_info_no_fields parent_payload "S1" db20 rfl⟩

/-- A claims payload carrying a role string outside the closed role set. -/
def wizard_claims : Claims :=
  ⟨some "u1", some "w@x", some "wizard", some "t1", none, none, some 5⟩

/-- C4 counterexample: a credential whose payload role is outside the
closed set decodes successfully — `decode_token` returns the payload with
the role string kept verbatim, instead of failing with a malformed-decode
error. -/
theorem c4_counterexample_unknown_role_decodes :
    decode_token (some wizard_claims) 0
      = some ⟨"u1", "w@x", "wizard", "t1", none, none, 5⟩
    ∧ UserRole.ofString "wizard" = none :=
  ⟨rfl, rfl⟩

/-- C4 amended: `decode_token` performs no role validation — whenever the
required fields are present and the token is unexpired, decoding succeeds
and the returned identity carries the raw role string verbatim, member of
the closed role set or not. -/
theorem c4_decode_no_role_validation
    (u em r sn : String) (sid tid : Option String) (ex now : Int)
    (h : ¬ ex < now) :
    decode_token (some ⟨some u, some em, some r, some sn, sid, tid, some ex⟩) now
      = some ⟨u, em, r, sn, sid, tid, ex⟩ := by
  simp [decode_token, h]

/-- Witness for the amended C4 at a role string outside the enum. -/
theorem c4_decode_no_role_validation_witness :
    decode_token (some ⟨some "u2", some "z@x", some "gnome", some "t1", none, none, some 9⟩) 3
      = some ⟨"u2", "z@x", "gnome", "t1", none, none, 9⟩ :=
  c4_decode_no_role_validation "u2" "z@x" "gnome" "t1" none none 9 3 (by decide)

/-- C5: a student-role identity calling `get_class_performance` is denied
by the role check before any storage session is opened — the result is the
role-denial error dictionary and the session flag (second component) is
false, i.e. no query was issued. -/
theorem c5_class_performance_student_denied_before_query
    (uid em sn : String) (sid tid : Option String) (ex : Int)
    (class_id : String) (db : DB) :
    get_class_performance ⟨uid, em, "student", sn, sid, tid, ex⟩ class_id db
      = Except.ok (ClassPerfResult.error
          "Access denied: Only admins and teachers can view class statistics", false) := rfl

/-- C9: the derived exam percentage is `marks_obtained / max_marks * 100`
whenever `max_marks` is positive and 0 when `max_marks` is 0 — the division
is guarded and never faults. -/
theorem c9_exam_percentage_guarded
    (i sidn : Nat) (m mm : ℚ) (h : 0 < mm) :
    ExamResultRow.percentage ⟨i, sidn, m, mm⟩ = m / mm * 100
    ∧ ExamResultRow.percentage ⟨i, sidn, m, 0⟩ = 0 := by
  constructor
  · simp [ExamResultRow.percentage, h]
  · simp [ExamResultRow.percentage]

/-- Witness for C9: 45 of 50 marks is 90.0, and zero max marks yields 0.0. -/
theorem c9_exam_percentage_guarded_witness :
    ExamResultRow.percentage ⟨1, 1, 45, 50⟩ = (45 : ℚ) / 50 * 100
    ∧ ExamResultRow.percentage ⟨1, 1, 45, 0⟩ = 0
    ∧ (45 : ℚ) / 50 * 100 = 90 := by
  have h := c9_exam_percentage_guarded 1 1 45 50 (by norm_num)
  exact ⟨h.1, h.2, by norm_num⟩

/-- C7: the performance-tier insight heads the insights list and partitions
averages into exactly four bands with inclusive lower bounds — ≥ 90
excellent, [75, 90) good, [60, 75) average, < 60 needs improvement — with
pairwise distinct messages, and an average of exactly 90 is excellent. -/
theorem c7_performance_tier_bands (avg att : ℚ) (subs : List (String × ℚ)) :
    (performance_insights avg att subs).head? = some (performance_tier avg)
    ∧ (90 ≤ avg → performance_tier avg = excellent_msg)
    ∧ (75 ≤ avg → avg < 90 → performance_tier avg = good_msg)
    ∧ (60 ≤ avg → avg < 75 → performance_tier avg = average_msg)
    ∧ (avg < 60 → performance_tier avg = needs_improvement_msg)
    ∧ performance_tier 90 = excellent_msg
    ∧ (excellent_msg ≠ good_msg ∧ excellent_msg ≠ average_msg
        ∧ excellent_msg ≠ needs_improvement_msg ∧ good_msg ≠ average_msg
        ∧ good_msg ≠ needs_improvement_msg ∧ average_msg ≠ needs_improvement_msg) := by
  refine ⟨by simp [performance_insights], ?_, ?_, ?_, ?_,
    by norm_num [performance_tier], by decide⟩
  · intro h
    simp [performance_tier, h]
  · intro h75 h90
    have h1 : ¬ avg ≥ 90 := by linarith
    simp [performance_tier, h1, h75]
  · intro h60 h75
    have h1 : ¬ avg ≥ 90 := by linarith
    have h2 : ¬ avg ≥ 75 := by linarith
    simp [performance_tier, h1, h2, h60]
  · intro h60
    have h1 : ¬ avg ≥ 90 := by linarith
    have h2 : ¬ avg ≥ 75 := by linarith
    have h3 : ¬ avg ≥ 60 := by linarith
    simp [performance_tier, h1, h2, h3]

/-- Witness for C7 at the band boundary 90. -/
theorem c7_performance_tier_bands_witness :
    (performance_insights 90 80 []).head? = some (performance_tier 90)
    ∧ performance_tier 90 = excellent_msg
    ∧ excellent_msg ≠ good_msg := by
  have h := c7_performance_tier_bands 90 80 []
  exact ⟨h.1, h.2.1 (by norm_num), h.2.2.2.2.2.2.1⟩

/-- C10: `decode_token` is total — signature-verification failure, each
missing required payload field, and expiry are all caught internally and
collapse to the indistinguishable `none` result, while an intact payload
decodes iff it is unexpired. (Timestamp-conversion faults fall under the
same catch-all `except Exception` and therefore also yield `none`.) -/
theorem c10_decode_token_total_collapse
    (now : Int) (c : Claims) (u em r sn : String) (sid tid : Option String) (e : Int) :
    decode_token none now = none
    ∧ (c.user_id = none → decode_token (some c) now = none)
    ∧ (c.email = none → decode_token (some c) now = none)
    ∧ (c.role = none → decode_token (some c) now = none)
    ∧ (c.schema_name = none → decode_token (some c) now = none)
    ∧ (c.exp = none → decode_token (some c) now = none)
    ∧ decode_token (some ⟨some u, some em, some r, some sn, sid, tid, some e⟩) now
        = if e < now then none else some ⟨u, em, r, sn, sid, tid, e⟩ := by
  obtain ⟨cu, ce, cr, cs, csid, ctid, cex⟩ := c
  refine ⟨rfl, ?_, ?_, ?_, ?_, ?_, rfl⟩ <;>
    · intro h
      cases cu <;> cases ce <;> cases cr <;> cases cs <;> cases cex <;>
        simp_all [decode_token]

/-- Witness for C10: an empty payload fails every required-field check and
yields `none`; an intact payload decodes when unexpired and yields `none`
when expired. -/
theorem c10_decode_token_total_collapse_witness :
    decode_token none 2 = none
    ∧ decode_token (some ⟨none, none, none, none, none, none, none⟩) 2 = none
    ∧ decode_token (some ⟨some "u1", some "e@x", some "student", some "t1", none, none, some 7⟩) 2
        = some ⟨"u1", "e@x", "student", "t1", none, none, 7⟩
    ∧ decode_token (some ⟨some "u1", some "e@x", some "student", some "t1", none, none, some 1⟩) 2
        = none := by
  have h := c10_decode_token_total_collapse 2 ⟨none, none, none, none, none, none, none⟩
    "u1" "e@x" "student" "t1" none none 7
  have h2 := c10_decode_token_total_collapse 2 ⟨none, none, none, none, none, none, none⟩
    "u1" "e@x" "student" "t1" none none 1
  exact ⟨h.1, h.2.1 rfl, h.2.2.2.2.2.2, h2.2.2.2.2.2.2⟩

/-- Helper: a filterMap by a status-guarded date extraction is
filter-then-map. -/
theorem filterMap_guard_eq_filter_map (l : List AttendanceRow) :
    l.filterMap (fun a => if a.status = .absent then some a.date else none)
      = (l.filter (fun a => decide (a.status = .absent))).map (fun a => a.date) := by
  induction l with
  | nil => rfl
  | cons x xs ih =>
    by_cases h : x.status = AttendanceStatus.absent <;>
      simp [List.filterMap_cons, List.filter_cons, h, ih]

/-- C6 counterexample: with the ten most recent records present and an
older absent record in the same date-filtered set, the report's
`recent_absences` is empty, while the dates of the most recent 10 absent
records of that set (the claim's reading) contain the absence. -/
theorem c6_counterexample_absent_beyond_top10 :
    attendance_result_is_report
        (get_student_attendance admin_payload (some "S1") none none db11) = true
    ∧ attendance_result_recent_absences
        (get_student_attendance admin_payload (some "S1") none none db11) = []
    ∧ recent_absences_spec (attendance_query db11 1 none none) = [201]
    ∧ ([] : List Nat) ≠ [201] := by
  refine ⟨?_, ?_, ?_, by decide⟩ <;> decide

/-- C6 amended: `recent_absences` equals the dates of the absent records
among the 10 most recent records of the already date/range-filtered set —
the 10 most recent records are taken first and then filtered to absences,
so an absence older than the 10 most recent records is omitted even when
fewer than 10 absences get listed. -/
theorem c6_recent_absences_top10_then_filter
    (p : AuthPayload) (sid : String) (start_date end_date : Option Nat)
    (db : DB) (s : StudentRow) (u : UserRow)
    (hacc : can_access_student_data p (some sid) = Except.ok true)
    (hfind : find_student_user db (some sid) = some (s, u)) :
    attendance_result_recent_absences
        (get_student_attendance p (some sid) start_date end_date db)
      = (((attendance_query db s.id start_date end_date).take 10).filter
          (fun a => decide (a.status = .absent))).map (fun a => a.date) := by
  simp [get_student_attendance, resolve_student_id, hacc, hfind,
    attendance_result_recent_absences, recent_absences_of, filterMap_guard_eq_filter_map]

/-- Witness for the amended C6 on the eleven-record fixture. -/
theorem c6_recent_absences_top10_then_filter_witness :
    attendance_result_recent_absences
        (get_student_attendance admin_payload (some "S1") none none db11)
      = (((attendance_query db11 s1_row.id none none).take 10).filter
          (fun a => decide (a.status = .absent))).map (fun a => a.date) :=
  c6_recent_absences_top10_then_filter admin_payload "S1" none none db11 s1_row u1_row rfl rfl

/-- C8: the attendance percentage is `presentDays / totalDays * 100` over
the date-filtered record set, 0 for an empty set (no division fault), and
the report field carries its 2-decimal rounding. -/
theorem c8_attendance_percentage_formula
    (p : AuthPayload) (sid : String) (start_date end_date : Option Nat)
    (db : DB) (s : StudentRow) (u : UserRow)
    (hacc : can_access_student_data p (some sid) = Except.ok true)
    (hfind : find_student_user db (some sid) = some (s, u)) :
    attendance_result_percentage (get_student_attendance p (some sid) start_date end_date db)
      = round2 (attendance_percentage_of (attendance_query db s.id start_date end_date))
    ∧ (0 < (attendance_query db s.id start_date end_date).length →
        attendance_percentage_of (attendance_query db s.id start_date end_date)
          = (count_status (attendance_query db s.id start_date end_date) .present : ℚ)
              / ((attendance_query db s.id start_date end_date).length : ℚ) * 100)
    ∧ attendance_percentage_of [] = 0 := by
  refine ⟨?_, ?_, rfl⟩
  · simp [get_student_attendance, resolve_student_id, hacc, hfind,
      attendance_result_percentage]
  · intro h
    simp [attendance_percentage_of, h]

/-- Witness for C8: 20 records with 17 present give exactly 85. -/
theorem c8_attendance_percentage_formula_witness :
    attendance_result_percentage (get_student_attendance admin_payload (some "S1") none none db20)
      = round2 (attendance_percentage_of (attendance_query db20 s1_row.id none none))
    ∧ (attendance_query db20 s1_row.id none none).length = 20
    ∧ count_status (attendance_query db20 s1_row.id none none) .present = 17
    ∧ round2 (attendance_percentage_of (attendance_query db20 s1_row.id none none)) = 85 := by
  have h := c8_attendance_percentage_formula admin_payload "S1" none none db20 s1_row u1_row rfl rfl
  have hl : (attendance_query db20 s1_row.id none none).length = 20 := by decide
  have hc : count_status (attendance_query db20 s1_row.id none none) .present = 17 := by decide
  have hp := h.2.1 (by rw [hl]; norm_num)
  refine ⟨h.1, hl, hc, ?_⟩
  rw [hp, hc, hl]
  norm_num [round2, round_half_even]
